import Mathlib

/-! Verification of the Book-Review service's cache-aside protocol.

This file shallowly embeds the code of `app/api/books.py` (the read-through
and write-invalidation orchestrators) and `app/services/cache.py` (the
Redis-backed cache client) and proves the specified properties about them.

External collaborators (the Redis transport, the JSON codec, the SQLAlchemy
persistence gateway) are modelled as oracles passed explicitly: each oracle
value describes the outcome the collaborator produces at that call site
(`Except.error` modelling a raised exception).  Python `None` is modelled by
`Json.null` where a JSON value is in play, and by `Option.none` at lookup
boundaries, matching the `is not None` / truthiness tests of the source.
-/

/-- Model of a Python value produced by `json.loads` / consumed by
`json.dumps`.  `null` models Python `None`. -/
inductive Json where
  | null : Json
  | bool : Bool → Json
  | num : Int → Json
  | str : String → Json
  | arr : List Json → Json
  | obj : List (String × Json) → Json

/-- A persisted Book row (`app/models/book.py`).  Timestamps are carried as
their ISO-8601 renderings (what `isoformat()` would produce), `none` when the
column is NULL. -/
structure Book where
  id : Nat
  title : String
  author : String
  isbn : Option String
  description : Option String
  published_year : Option Nat
  created_at : Option String
  updated_at : Option String
deriving DecidableEq

/-- A persisted Review row (`app/models/book.py`). -/
structure Review where
  id : Nat
  book_id : Nat
  reviewer_name : String
  rating : Nat
  comment : Option String
deriving DecidableEq

/-- The Python test `x is None` on a value in our model (where `Json.null`
stands for `None`). -/
def Json.isNull : Json → Bool
  | Json.null => true
  | _ => false

/-- Python's `len()` is defined on the sized JSON values (str, list, dict);
calling it on a number, boolean or `None` raises `TypeError`. -/
def jsonHasLen : Json → Bool
  | Json.str _ => true
  | Json.arr _ => true
  | Json.obj _ => true
  | _ => false

/-- The dictionary built from a Book row by the loop in
`get_books` (`app/api/books.py` lines 42-54): every column is copied, the
timestamps via `isoformat()` when present and `None` otherwise. -/
def bookToDict (b : Book) : Json :=
  Json.obj
    [ ("id", Json.num (Int.ofNat b.id)),
      ("title", Json.str b.title),
      ("author", Json.str b.author),
      ("isbn", (match b.isbn with | some s => Json.str s | none => Json.null)),
      ("description", (match b.description with | some s => Json.str s | none => Json.null)),
      ("published_year", (match b.published_year with | some y => Json.num (Int.ofNat y) | none => Json.null)),
      ("created_at", (match b.created_at with | some t => Json.str t | none => Json.null)),
      ("updated_at", (match b.updated_at with | some t => Json.str t | none => Json.null)) ]

/-! Cache client (`app/services/cache.py`) -/

/-- The only in-process state of `CacheService`: the connection handle set by
`_connect` (`None` when the construction-time probe failed). -/
structure CacheState where
  redis_client : Option Unit
deriving DecidableEq

/-- Model of `CacheService._connect`: builds the client and pings it; on success the
handle is kept, on any exception it is set to `None`. The `probe` oracle is
the outcome of the constructor-and-ping sequence. -/
def CacheService.connect (probe : Except String Unit) : CacheState :=
  match probe with
  | Except.ok _ => ⟨some ()⟩
  | Except.error _ => ⟨none⟩

/-- Model of `CacheService.is_available`: `self.redis_client is not None`. -/
def CacheService.is_available (st : CacheState) : Bool :=
  st.redis_client.isSome

/-- Model of `CacheService.get`.  `transport` is the outcome of `redis_client.get(key)`
(`ok none` = key absent, `ok (some s)` = stored string, `error` = raised);
`parse` is the behaviour of `json.loads`.  Returns the Python value handed to
the caller; `Json.null` models returning `None`.  The guard branch, the
truthiness test `if value:` (false for `None` and for the empty string), and
the catch-all `except` returning `None` are each embedded. -/
def CacheService.get (st : CacheState) (transport : Except String (Option String))
    (parse : String → Except String Json) : Json :=
  match st.redis_client with
  | none => Json.null
  | some _ =>
    match transport with
    | Except.error _ => Json.null
    | Except.ok none => Json.null
    | Except.ok (some s) =>
      if s = "" then Json.null
      else
        match parse s with
        | Except.error _ => Json.null
        | Except.ok v => v

/-- Model of `CacheService.set`.  `serialize` is the outcome of
`json.dumps(value, default=str)`, `transport` the outcome of
`redis_client.setex(key, expire, serialized_value)`.  Returns `false` when the
client is unavailable or any step raises, `true` otherwise. -/
def CacheService.set (st : CacheState) (serialize : Except String String)
    (transport : Except String Unit) : Bool :=
  match st.redis_client with
  | none => false
  | some _ =>
    match serialize with
    | Except.error _ => false
    | Except.ok _ =>
      match transport with
      | Except.error _ => false
      | Except.ok _ => true

/-- Model of `CacheService.delete`.  `transport` is the outcome of
`redis_client.delete(key)`. -/
def CacheService.delete (st : CacheState) (transport : Except String Unit) : Bool :=
  match st.redis_client with
  | none => false
  | some _ =>
    match transport with
    | Except.error _ => false
    | Except.ok _ => true

/-- One call against the cache client, carrying the collaborator outcomes for
that call. -/
inductive CacheOp where
  | opGet (transport : Except String (Option String)) (parse : String → Except String Json)
  | opSet (serialize : Except String String) (transport : Except String Unit)
  | opDelete (transport : Except String Unit)

/-- The state of the `CacheService` after one method call.  None of `get`,
`set`, `delete` assigns `self.redis_client`, so the post-state equals the
pre-state; this definition records that fact of the source. -/
def runCacheOp (st : CacheState) : CacheOp → CacheState
  | CacheOp.opGet _ _ => st
  | CacheOp.opSet _ _ => st
  | CacheOp.opDelete _ => st

/-- The state after a whole sequence of cache-client calls. -/
def runCacheOps (st : CacheState) (ops : List CacheOp) : CacheState :=
  ops.foldl runCacheOp st

/-! Read-through orchestrator (`get_books`, `app/api/books.py` lines 16-76) -/

/-- Outcome of an HTTP handler: a 2xx result with a body, or a raised
`HTTPException` with status code and detail string. -/
inductive HttpResult (α : Type) where
  | ok (status : Nat) (body : α)
  | httpError (status : Nat) (detail : String)
deriving DecidableEq

/-- What `get_books` returns to the framework: either the raw cached JSON
value (`return cached_books`) or the freshly loaded ORM rows
(`return books`). -/
inductive BooksBody where
  | cached (v : Json)
  | fresh (books : List Book)

/-- The cache key `f"books:list:{skip}:{limit}"` computed at
`app/api/books.py` line 28. -/
def cache_key (skip limit : Nat) : String :=
  "books:list:" ++ Nat.repr skip ++ ":" ++ Nat.repr limit

/-- Behaviour of one `cache_service.set` call as seen by a caller: the
returned boolean, or a raised exception. -/
inductive SetOutcome where
  | ret (b : Bool)
  | raises (msg : String)

/-- Everything observable about one `get_books` request: the HTTP outcome,
how many times `BookService.get_books` (the persistence gateway) was called,
and the `cache_service.set` attempts made (key, value, TTL). -/
structure ListBooksResult where
  response : HttpResult BooksBody
  dbCalls : Nat
  setCalls : List (String × Json × Nat)

/-- The `get_books` endpoint.

* `cacheRes` is the value returned by `cache_service.get(cache_key)`
  (`Json.null` models Python `None`; the client never raises, see
  `cache_get` theorems below).
* `db i` is the outcome of the `i`-th `BookService.get_books(db, skip, limit)`
  call of this request (0-based), `Except.error` modelling a raised exception.
* `setOut` is the behaviour of the `cache_service.set` call, should one be
  made.

Control flow embedded from the source: the `is not None` test (line 33); the
log f-string `len(cached_books)` which raises `TypeError` on a non-sized
value (line 34), caught by the catch-all `except` (line 65) whose fallback
reloads from the database (line 72) and maps a second failure to HTTP 500
(line 76); the miss path loading from the database (line 39), converting rows
to dicts (lines 42-54), attempting `cache_service.set(cache_key, books_data,
expire=300)` (line 57) and returning the fresh rows (line 63).  A raise from
`set` is likewise caught at line 65 and leads to the fallback reload. -/
def get_books (skip limit : Nat) (cacheRes : Json)
    (db : Nat → Except String (List Book)) (setOut : SetOutcome) : ListBooksResult :=
  if cacheRes.isNull then
    match db 0 with
    | Except.error _ =>
      match db 1 with
      | Except.ok books => ⟨HttpResult.ok 200 (BooksBody.fresh books), 2, []⟩
      | Except.error e2 =>
        ⟨HttpResult.httpError 500 ("Internal server error: " ++ e2), 2, []⟩
    | Except.ok books =>
      let books_data := Json.arr (books.map bookToDict)
      let setCall := [(cache_key skip limit, books_data, 300)]
      match setOut with
      | SetOutcome.ret _ => ⟨HttpResult.ok 200 (BooksBody.fresh books), 1, setCall⟩
      | SetOutcome.raises _ =>
        match db 1 with
        | Except.ok books2 => ⟨HttpResult.ok 200 (BooksBody.fresh books2), 2, setCall⟩
        | Except.error e2 =>
          ⟨HttpResult.httpError 500 ("Internal server error: " ++ e2), 2, setCall⟩
  else
    if jsonHasLen cacheRes then
      ⟨HttpResult.ok 200 (BooksBody.cached cacheRes), 0, []⟩
    else
      match db 0 with
      | Except.ok books => ⟨HttpResult.ok 200 (BooksBody.fresh books), 1, []⟩
      | Except.error e =>
        ⟨HttpResult.httpError 500 ("Internal server error: " ++ e), 1, []⟩

/-! Write-invalidation orchestrator (`create_book`, lines 78-131) -/

/-- Python's substring operator `sub in s`, on the underlying characters. -/
def charsLeadingMatch : List Char → List Char → Bool
  | [], _ => true
  | _ :: _, [] => false
  | c :: cs, d :: ds => c = d && charsLeadingMatch cs ds

/-- Helper for `strContains`: does `sub` occur inside `l`? -/
def charsScan (sub : List Char) : List Char → Bool
  | [] => sub.isEmpty
  | c :: rest => charsLeadingMatch sub (c :: rest) || charsScan sub rest

/-- Python's substring test `sub in s` for strings. -/
def strContains (s sub : String) : Bool :=
  charsScan sub.data s.data

/-- Outcome of `BookService.create_book(db, book)`: the committed row, a
raised `IntegrityError` (carrying `str(e)`), or any other raised exception. -/
inductive CreateOutcome where
  | created (b : Book)
  | integrityError (msg : String)
  | otherError (msg : String)

/-- Behaviour of one `cache_service.delete` call: returned boolean or raise. -/
inductive DeleteOutcome where
  | ret (b : Bool)
  | raises (msg : String)

/-- The hardcoded invalidation list (`cache_keys_to_invalidate`,
lines 102-106). -/
def cache_keys_to_invalidate : List String :=
  ["books:list:0:100", "books:list:0:10", "books:list:0:50"]

/-- The keys on which `cache_service.delete` is actually called by the `for`
loop at lines 108-109: the loop runs inside one `try`, so a raising delete is
still attempted but aborts the loop, skipping the remaining keys; a delete
returning a boolean (either boolean) lets the loop continue. -/
def attemptDeletes : List String → (String → DeleteOutcome) → List String
  | [], _ => []
  | k :: ks, del =>
    match del k with
    | DeleteOutcome.ret _ => k :: attemptDeletes ks del
    | DeleteOutcome.raises _ => [k]

/-- Everything observable about one `create_book` request: the HTTP outcome,
the keys on which deletion was attempted, whether `db.rollback()` was called,
and the persisted rows afterwards (computed from `dbBooks`, the rows before
the request: the commit appends the row, a rolled-back failure leaves the
table unchanged). -/
structure CreateBookResult where
  response : HttpResult Book
  deletesAttempted : List String
  rolledBack : Bool
  booksAfter : List Book
deriving DecidableEq

/-- The `create_book` endpoint (lines 78-131).  On success (201) the three
hardcoded keys are deleted inside a `try` whose `except` only logs (lines
100-114).  An `IntegrityError` rolls back and is mapped by substring
inspection of `str(e)`: the message names the `ix_books_isbn` unique index →
400 "A book with this ISBN already exists"; some other duplicate-key
constraint → 400 "A book with these details already exists"; any other
integrity error → 400 "Database constraint violation" (lines 117-127).  Any
other exception rolls back and yields 500 "Failed to create book"
(lines 128-131). -/
def create_book (dbBooks : List Book) (outcome : CreateOutcome)
    (del : String → DeleteOutcome) : CreateBookResult :=
  match outcome with
  | CreateOutcome.created b =>
    ⟨HttpResult.ok 201 b, attemptDeletes cache_keys_to_invalidate del, false,
      dbBooks ++ [b]⟩
  | CreateOutcome.integrityError msg =>
    if strContains msg "duplicate key value violates unique constraint" then
      if strContains msg "ix_books_isbn" then
        ⟨HttpResult.httpError 400 "A book with this ISBN already exists", [], true, dbBooks⟩
      else
        ⟨HttpResult.httpError 400 "A book with these details already exists", [], true, dbBooks⟩
    else
      ⟨HttpResult.httpError 400 "Database constraint violation", [], true, dbBooks⟩
  | CreateOutcome.otherError _ =>
    ⟨HttpResult.httpError 500 "Failed to create book", [], true, dbBooks⟩

/-! Review sub-flows (lines 133-180) -/

/-- Observables of `get_book_reviews`: the HTTP outcome and whether any
persistence mutation was attempted (this handler never mutates). -/
structure ReviewsListResult where
  response : HttpResult (List Review)
  writeAttempted : Bool
deriving DecidableEq

/-- The `get_book_reviews` endpoint (lines 133-156).  `book` is the result of
`BookService.get_book(db, book_id)` (`none` = no row); `reviews` the outcome
of `BookService.get_book_reviews`. -/
def get_book_reviews (book : Option Book)
    (reviews : Except String (List Review)) : ReviewsListResult :=
  match book with
  | none => ⟨HttpResult.httpError 404 "Book not found", false⟩
  | some _ =>
    match reviews with
    | Except.ok rs => ⟨HttpResult.ok 200 rs, false⟩
    | Except.error e =>
      ⟨HttpResult.httpError 500 ("Internal server error: " ++ e), false⟩

/-- Observables of `create_book_review`: the HTTP outcome and whether the
persistence write (`BookService.create_review`) was attempted. -/
structure CreateReviewResult where
  response : HttpResult Review
  writeAttempted : Bool
deriving DecidableEq

/-- The `create_book_review` endpoint (lines 158-180).  The existence check
precedes the write; on `none` the handler raises 404 before
`BookService.create_review` is reached. -/
def create_book_review (book : Option Book)
    (createRev : Except String Review) : CreateReviewResult :=
  match book with
  | none => ⟨HttpResult.httpError 404 "Book not found", false⟩
  | some _ =>
    match createRev with
    | Except.ok r => ⟨HttpResult.ok 201 r, true⟩
    | Except.error e =>
      ⟨HttpResult.httpError 500 ("Internal server error: " ++ e), true⟩

/-! Theorems -/

/-- C4: for every key, value and internal failure (unavailable client,
transport error, serialization or deserialization error), the cache client
operations never raise to their caller: `get` returns absent (`None`), and
`set` and `delete` return `false` instead of propagating the failure.  The
conjunction covers each failure mode of each operation; the operations being
total Lean functions into `Json` / `Bool`, nothing can escape them. -/
theorem cache_ops_absorb_failures
    (st : CacheState) (e s : String)
    (transport_g : Except String (Option String))
    (parse : String → Except String Json)
    (ser : Except String String) (transport : Except String Unit)
    (hparse : parse s = Except.error e) :
    CacheService.get ⟨none⟩ transport_g parse = Json.null ∧
    CacheService.set ⟨none⟩ ser transport = false ∧
    CacheService.delete ⟨none⟩ transport = false ∧
    CacheService.get st (Except.error e) parse = Json.null ∧
    CacheService.set st ser (Except.error e) = false ∧
    CacheService.delete st (Except.error e) = false ∧
    CacheService.set st (Except.error e) transport = false ∧
    CacheService.get st (Except.ok (some s)) parse = Json.null := by
  obtain ⟨rc⟩ := st
  refine ⟨rfl, ?_, rfl, ?_, ?_, ?_, ?_, ?_⟩
  · cases ser <;> rfl
  · cases rc <;> rfl
  · cases rc <;> cases ser <;> rfl
  · cases rc <;> rfl
  · cases rc <;> rfl
  · cases rc with
    | none => rfl
    | some u =>
      by_cases hs : s = ""
      · simp [CacheService.get, hs]
      · simp [CacheService.get, hs, hparse]

/-- Witness for `cache_ops_absorb_failures` at concrete inputs. -/
theorem cache_ops_absorb_failures_witness :
    CacheService.get ⟨none⟩ (Except.ok none) (fun _ => Except.error "boom") = Json.null ∧
    CacheService.set ⟨none⟩ (Except.ok "[]") (Except.ok ()) = false ∧
    CacheService.delete ⟨none⟩ (Except.ok ()) = false ∧
    CacheService.get ⟨some ()⟩ (Except.error "boom") (fun _ => Except.error "boom") = Json.null ∧
    CacheService.set ⟨some ()⟩ (Except.ok "[]") (Except.error "boom") = false ∧
    CacheService.delete ⟨some ()⟩ (Except.error "boom") = false ∧
    CacheService.set ⟨some ()⟩ (Except.error "boom") (Except.ok ()) = false ∧
    CacheService.get ⟨some ()⟩ (Except.ok (some "x")) (fun _ => Except.error "boom") = Json.null :=
  cache_ops_absorb_failures ⟨some ()⟩ "boom" "x" (Except.ok none)
    (fun _ => Except.error "boom") (Except.ok "[]") (Except.ok ()) rfl

/-- Helper: no cache-client method call changes the service's state. -/
lemma runCacheOps_fixed (st : CacheState) (ops : List CacheOp) :
    runCacheOps st ops = st := by
  induction ops generalizing st with
  | nil => rfl
  | cons op ops ih =>
    have h : runCacheOp st op = st := by cases op <;> rfl
    calc runCacheOps st (op :: ops)
        = runCacheOps (runCacheOp st op) ops := rfl
      _ = runCacheOp st op := ih _
      _ = st := h

/-- C10: the availability state is fixed at construction: after any sequence
of `get`/`set`/`delete` calls (with any collaborator outcomes, including all
failing), `is_available` returns the same boolean it returned right after the
construction-time probe; no operation failure ever flips it. -/
theorem is_available_constant_after_connect
    (probe : Except String Unit) (ops : List CacheOp) :
    CacheService.is_available (runCacheOps (CacheService.connect probe) ops)
      = CacheService.is_available (CacheService.connect probe) := by
  rw [runCacheOps_fixed]

/-- C2: on a cache miss (the client reported absent, which per
`cache_ops_absorb_failures` also covers every internal cache error), the
response is the gateway's current data for the window, and a repopulation is
attempted for the computed key with TTL 300 seconds. -/
theorem get_books_miss_repopulates
    (skip limit : Nat) (db : Nat → Except String (List Book)) (b : Bool)
    (books : List Book) (hdb : db 0 = Except.ok books) :
    get_books skip limit Json.null db (SetOutcome.ret b) =
      ⟨HttpResult.ok 200 (BooksBody.fresh books), 1,
        [(cache_key skip limit, Json.arr (books.map bookToDict), 300)]⟩ := by
  simp [get_books, Json.isNull, hdb]

/-- Witness for `get_books_miss_repopulates` at concrete inputs. -/
theorem get_books_miss_repopulates_witness :
    get_books 0 100 Json.null (fun _ => Except.ok []) (SetOutcome.ret false) =
      ⟨HttpResult.ok 200 (BooksBody.fresh []), 1,
        [(cache_key 0 100, Json.arr [], 300)]⟩ :=
  get_books_miss_repopulates 0 100 (fun _ => Except.ok []) false [] rfl

/-- C8: for a book id absent from the persistence gateway, both review
endpoints return 404 and attempt no persistence mutation: the existence check
short-circuits before any write. -/
theorem review_endpoints_absent_book_404
    (createRev : Except String Review) (reviews : Except String (List Review)) :
    create_book_review none createRev
        = ⟨HttpResult.httpError 404 "Book not found", false⟩ ∧
    get_book_reviews none reviews
        = ⟨HttpResult.httpError 404 "Book not found", false⟩ :=
  ⟨rfl, rfl⟩

/-- C6: `create_book` attempts deletion of the fixed invalidation key set iff
creation at the gateway succeeded.  With the repository's cache client every
delete returns a boolean rather than raising (`cache_ops_absorb_failures`),
so under that hypothesis all three deletions are attempted regardless of each
other's boolean outcome, and the 201 response with the created Book is
unchanged by any failures; on a failed creation no deletion is attempted. -/
theorem create_book_invalidation_iff_created
    (dbBooks : List Book) (b : Book) (msg : String)
    (del : String → DeleteOutcome)
    (hdel : ∀ k, ∃ bb, del k = DeleteOutcome.ret bb) :
    create_book dbBooks (CreateOutcome.created b) del =
      ⟨HttpResult.ok 201 b, cache_keys_to_invalidate, false, dbBooks ++ [b]⟩ ∧
    (create_book dbBooks (CreateOutcome.integrityError msg) del).deletesAttempted = [] ∧
    (create_book dbBooks (CreateOutcome.otherError msg) del).deletesAttempted = [] := by
  obtain ⟨b1, h1⟩ := hdel "books:list:0:100"
  obtain ⟨b2, h2⟩ := hdel "books:list:0:10"
  obtain ⟨b3, h3⟩ := hdel "books:list:0:50"
  refine ⟨?_, ?_, rfl⟩
  · simp [create_book, cache_keys_to_invalidate, attemptDeletes, h1, h2, h3]
  · cases hc : strContains msg "duplicate key value violates unique constraint" <;>
      cases hc2 : strContains msg "ix_books_isbn" <;>
      simp [create_book, hc, hc2]

/-- Witness for `create_book_invalidation_iff_created` at concrete inputs. -/
theorem create_book_invalidation_iff_created_witness :
    create_book [] (CreateOutcome.created ⟨1, "t", "a", none, none, none, none, none⟩)
        (fun _ => DeleteOutcome.ret false) =
      ⟨HttpResult.ok 201 ⟨1, "t", "a", none, none, none, none, none⟩,
        cache_keys_to_invalidate, false, [⟨1, "t", "a", none, none, none, none, none⟩]⟩ :=
  (create_book_invalidation_iff_created [] ⟨1, "t", "a", none, none, none, none, none⟩
    "e" (fun _ => DeleteOutcome.ret false) (fun _ => ⟨false, rfl⟩)).1

/-- C7: a duplicate-isbn `IntegrityError` (its message naming the violated
`ix_books_isbn` constraint) yields 400 with the isbn-specific detail, a
generic duplicate-key violation yields 400 with a different detail, the two
details differ, the transaction is rolled back, and the persisted rows are
unchanged. -/
theorem create_book_duplicate_isbn
    (dbBooks : List Book) (msg msg2 : String) (del : String → DeleteOutcome)
    (h1 : strContains msg "duplicate key value violates unique constraint" = true)
    (h2 : strContains msg "ix_books_isbn" = true)
    (h3 : strContains msg2 "duplicate key value violates unique constraint" = true)
    (h4 : strContains msg2 "ix_books_isbn" = false) :
    create_book dbBooks (CreateOutcome.integrityError msg) del =
      ⟨HttpResult.httpError 400 "A book with this ISBN already exists", [], true, dbBooks⟩ ∧
    create_book dbBooks (CreateOutcome.integrityError msg2) del =
      ⟨HttpResult.httpError 400 "A book with these details already exists", [], true, dbBooks⟩ ∧
    ("A book with this ISBN already exists" : String)
      ≠ "A book with these details already exists" := by
  refine ⟨?_, ?_, by decide⟩
  · simp [create_book, h1, h2]
  · simp [create_book, h3, h4]

/-- Witness for `create_book_duplicate_isbn` at concrete inputs. -/
theorem create_book_duplicate_isbn_witness :
    create_book []
      (CreateOutcome.integrityError
        "duplicate key value violates unique constraint ix_books_isbn")
      (fun _ => DeleteOutcome.ret true) =
      ⟨HttpResult.httpError 400 "A book with this ISBN already exists", [], true, []⟩ :=
  (create_book_duplicate_isbn []
    "duplicate key value violates unique constraint ix_books_isbn"
    "duplicate key value violates unique constraint uq_other"
    (fun _ => DeleteOutcome.ret true) rfl rfl rfl rfl).1

/-- C1 counterexample: the claim fails as stated.  If the cache returns the
JSON number `0` for the key (the client reported a value, not absent), the
log statement's `len(cached_books)` raises `TypeError`, the catch-all
`except` falls back to the database, and the handler serves the gateway's
data: one persistence call is made and the response is not the cached
value. -/
theorem get_books_cache_hit_counterexample :
    (Json.num 0).isNull = false ∧
    (get_books 0 100 (Json.num 0) (fun _ => Except.ok []) (SetOutcome.ret true)).dbCalls = 1 ∧
    (get_books 0 100 (Json.num 0) (fun _ => Except.ok []) (SetOutcome.ret true)).response
      = HttpResult.ok 200 (BooksBody.fresh []) :=
  ⟨rfl, rfl, rfl⟩

/-- C1 (amended): when `cache_service.get` returns a value on which Python's
`len` is defined — which includes every value this system itself stores,
always a JSON array — `get_books` returns exactly that cached value with
status 200 and makes no persistence-gateway call; when the value is a
non-sized JSON value (number or boolean), the logging f-string raises, and
the handler instead serves a single direct gateway load (no repopulation). -/
theorem get_books_cache_hit
    (skip limit : Nat) (v : Json) (db : Nat → Except String (List Book))
    (so : SetOutcome) (hv : v.isNull = false) :
    (jsonHasLen v = true →
      get_books skip limit v db so = ⟨HttpResult.ok 200 (BooksBody.cached v), 0, []⟩) ∧
    (jsonHasLen v = false →
      (get_books skip limit v db so).setCalls = [] ∧
      (get_books skip limit v db so).dbCalls = 1 ∧
      (get_books skip limit v db so).response =
        (match db 0 with
         | Except.ok books => HttpResult.ok 200 (BooksBody.fresh books)
         | Except.error e => HttpResult.httpError 500 ("Internal server error: " ++ e))) := by
  constructor
  · intro hlen
    simp [get_books, hv, hlen]
  · intro hlen
    cases hdb : db 0 <;> simp [get_books, hv, hlen, hdb]

/-- Witness for `get_books_cache_hit` at concrete inputs. -/
theorem get_books_cache_hit_witness :
    get_books 0 100 (Json.arr [Json.num 7]) (fun _ => Except.ok []) (SetOutcome.ret true)
      = ⟨HttpResult.ok 200 (BooksBody.cached (Json.arr [Json.num 7])), 0, []⟩ :=
  (get_books_cache_hit 0 100 (Json.arr [Json.num 7]) (fun _ => Except.ok [])
    (SetOutcome.ret true) rfl).1 rfl

/-- C3 counterexample: the claim fails as stated.  With a gateway whose first
load raises and whose second load succeeds, the request does not fail
outright: the catch-all `except` retries `BookService.get_books` and the
request succeeds with 200.  The second conjunct exhibits that the first load
did raise. -/
theorem get_books_db_failure_counterexample :
    (get_books 0 100 Json.null
        (fun i => if i = 0 then Except.error "connection refused" else Except.ok [])
        (SetOutcome.ret true)).response = HttpResult.ok 200 (BooksBody.fresh []) ∧
    (fun i => if i = 0 then Except.error "connection refused"
              else Except.ok ([] : List Book)) 0
      = Except.error "connection refused" :=
  ⟨rfl, rfl⟩

/-- C3 (amended): if the gateway load raises, the handler catches the error
and makes exactly one more gateway load attempt; the request surfaces as a
500 server error (with the retry's error in the detail) only when that retry
also fails, and succeeds with the retry's data when it succeeds. In either
case the gateway remains the only way for the request to be served. -/
theorem get_books_db_failure_retry
    (skip limit : Nat) (db : Nat → Except String (List Book)) (e : String)
    (so : SetOutcome) (hdb : db 0 = Except.error e) :
    (∀ books, db 1 = Except.ok books →
      get_books skip limit Json.null db so
        = ⟨HttpResult.ok 200 (BooksBody.fresh books), 2, []⟩) ∧
    (∀ e2, db 1 = Except.error e2 →
      get_books skip limit Json.null db so
        = ⟨HttpResult.httpError 500 ("Internal server error: " ++ e2), 2, []⟩) := by
  constructor <;> intro x hx <;> simp [get_books, Json.isNull, hdb, hx]

/-- Witness for `get_books_db_failure_retry` at concrete inputs. -/
theorem get_books_db_failure_retry_witness :
    get_books 0 100 Json.null
        (fun i => if i = 0 then Except.error "down" else Except.ok [])
        (SetOutcome.ret true)
      = ⟨HttpResult.ok 200 (BooksBody.fresh []), 2, []⟩ :=
  (get_books_db_failure_retry 0 100
    (fun i => if i = 0 then Except.error "down" else Except.ok []) "down"
    (SetOutcome.ret true) rfl).1 [] rfl

/-- C5 counterexample: the claim fails as stated.  With the first gateway
load succeeding and the second failing, a repopulation that succeeds yields
200 with the loaded data, while a repopulation that throws makes the
catch-all `except` re-load from the gateway and the request surfaces 500:
the response status differs between the two runs. -/
theorem get_books_set_failure_counterexample :
    (get_books 0 100 Json.null
        (fun i => if i = 0 then Except.ok [] else Except.error "connection reset")
        (SetOutcome.ret true)).response = HttpResult.ok 200 (BooksBody.fresh []) ∧
    (get_books 0 100 Json.null
        (fun i => if i = 0 then Except.ok [] else Except.error "connection reset")
        (SetOutcome.raises "redis write failed")).response
      = HttpResult.httpError 500 "Internal server error: connection reset" :=
  ⟨rfl, rfl⟩

/-- C5 (amended): a repopulation that fails by returning `false` leaves the
whole observable outcome (status, body, calls made) identical to a
repopulation that returns `true`; a repopulation that throws instead sends
the handler through the catch-all `except`, which re-loads from the gateway
and responds with that reload's outcome — the same body only if the reload
returns the same data, and a 500 if the reload fails. -/
theorem get_books_repopulation_failure
    (skip limit : Nat) (db : Nat → Except String (List Book)) (books : List Book)
    (hdb : db 0 = Except.ok books) :
    (∀ b b', get_books skip limit Json.null db (SetOutcome.ret b)
        = get_books skip limit Json.null db (SetOutcome.ret b')) ∧
    (∀ m, (get_books skip limit Json.null db (SetOutcome.raises m)).response =
      (match db 1 with
       | Except.ok books2 => HttpResult.ok 200 (BooksBody.fresh books2)
       | Except.error e2 => HttpResult.httpError 500 ("Internal server error: " ++ e2))) := by
  constructor
  · intro b b'
    simp [get_books, Json.isNull, hdb]
  · intro m
    cases h1 : db 1 <;> simp [get_books, Json.isNull, hdb, h1]

/-- Witness for `get_books_repopulation_failure` at concrete inputs. -/
theorem get_books_repopulation_failure_witness :
    get_books 0 100 Json.null (fun _ => Except.ok []) (SetOutcome.ret false)
      = get_books 0 100 Json.null (fun _ => Except.ok []) (SetOutcome.ret true) :=
  (get_books_repopulation_failure 0 100 (fun _ => Except.ok []) [] rfl).1 false true

/-! Injectivity of the list cache key (C9)

`cache_key` renders `skip` and `limit` in decimal (`Nat.repr`).  We prove the
decimal digits round-trip through a decoder, that they contain only digit
characters (so the `:` separator is unambiguous), and conclude that distinct
pagination windows get distinct keys. -/

/-- The digit characters produced for base-10 digits decode back to their
value. -/
lemma digitChar_toNat : ∀ m : Nat, m < 10 → (Nat.digitChar m).toNat = 48 + m := by
  decide

/-- Base-10 digit characters satisfy `Char.isDigit`. -/
lemma digitChar_isDigit : ∀ m : Nat, m < 10 → (Nat.digitChar m).isDigit = true := by
  decide

/-- Lemma: `Nat.toDigitsCore` only prepends to its accumulator. -/
lemma toDigitsCore_acc (b : Nat) : ∀ (fuel n : Nat) (acc : List Char),
    Nat.toDigitsCore b fuel n acc = Nat.toDigitsCore b fuel n [] ++ acc := by
  intro fuel
  induction fuel with
  | zero => intro n acc; simp [Nat.toDigitsCore]
  | succ f ih =>
    intro n acc
    by_cases h : n / b = 0
    · simp [Nat.toDigitsCore, h]
    · simp only [Nat.toDigitsCore, h, if_false]
      rw [ih (n / b) (Nat.digitChar (n % b) :: acc), ih (n / b) [Nat.digitChar (n % b)]]
      simp

/-- Every character of a base-10 `Nat.toDigitsCore` rendering (over a
digit-only accumulator) is a digit. -/
lemma toDigitsCore_digits : ∀ (fuel n : Nat) (acc : List Char),
    (∀ c ∈ acc, c.isDigit = true) →
    ∀ c ∈ Nat.toDigitsCore 10 fuel n acc, c.isDigit = true := by
  intro fuel
  induction fuel with
  | zero =>
    intro n acc hacc c hc
    simp [Nat.toDigitsCore] at hc
    exact hacc c hc
  | succ f ih =>
    intro n acc hacc c hc
    have hd : (Nat.digitChar (n % 10)).isDigit = true :=
      digitChar_isDigit _ (Nat.mod_lt n (by omega))
    by_cases h : n / 10 = 0
    · simp [Nat.toDigitsCore, h] at hc
      rcases hc with hc | hc
      · rw [hc]; exact hd
      · exact hacc c hc
    · simp only [Nat.toDigitsCore, h, if_false] at hc
      refine ih (n / 10) (Nat.digitChar (n % 10) :: acc) ?_ c hc
      intro z hz
      rcases List.mem_cons.mp hz with hz | hz
      · rw [hz]; exact hd
      · exact hacc z hz

/-- Decode a list of decimal digit characters back to the number. -/
def decodeDigits (l : List Char) : Nat :=
  l.foldl (fun a c => 10 * a + (c.toNat - 48)) 0

/-- The decimal rendering round-trips: decoding the digits of `n` gives `n`
back (for sufficient fuel). -/
lemma decode_toDigitsCore : ∀ (fuel n : Nat), n < fuel →
    decodeDigits (Nat.toDigitsCore 10 fuel n []) = n := by
  intro fuel
  induction fuel with
  | zero => intro n hn; omega
  | succ f ih =>
    intro n hn
    by_cases h : n / 10 = 0
    · have h10 : n < 10 := by omega
      have hstep : Nat.toDigitsCore 10 (f + 1) n [] = [Nat.digitChar (n % 10)] := by
        simp [Nat.toDigitsCore, h]
      rw [hstep]
      have hm : n % 10 = n := Nat.mod_eq_of_lt h10
      have hd := digitChar_toNat (n % 10) (by omega)
      simp [decodeDigits]
      omega
    · have hstep : Nat.toDigitsCore 10 (f + 1) n []
          = Nat.toDigitsCore 10 f (n / 10) [Nat.digitChar (n % 10)] := by
        simp [Nat.toDigitsCore, h]
      rw [hstep, toDigitsCore_acc]
      have hlt : n / 10 < f := by omega
      have ihh := ih (n / 10) hlt
      have hd := digitChar_toNat (n % 10) (Nat.mod_lt n (by omega))
      simp only [decodeDigits, List.foldl_append, List.foldl_cons, List.foldl_nil] at ihh ⊢
      rw [ihh]
      omega

/-- The decimal renderings of two distinct numbers differ. -/
lemma toDigits_inj (m n : Nat) (h : Nat.toDigits 10 m = Nat.toDigits 10 n) :
    m = n := by
  have hm := decode_toDigitsCore (m + 1) m (by omega)
  have hn := decode_toDigitsCore (n + 1) n (by omega)
  unfold Nat.toDigits at h
  rw [h] at hm
  rw [hn] at hm
  exact hm.symm

/-- Splitting on a `:` separator is unambiguous when both left parts consist
of digit characters only. -/
lemma colon_split : ∀ (a x b y : List Char),
    (∀ c ∈ a, c.isDigit = true) → (∀ c ∈ b, c.isDigit = true) →
    a ++ ':' :: x = b ++ ':' :: y → a = b ∧ x = y := by
  intro a
  induction a with
  | nil =>
    intro x b y _ hb h
    cases b with
    | nil =>
      simp only [List.nil_append] at h
      injection h with _ h2
      exact ⟨rfl, h2⟩
    | cons d bs =>
      simp only [List.nil_append, List.cons_append] at h
      injection h with h1 _
      have hd := hb d (List.mem_cons_self d bs)
      rw [← h1] at hd
      exact absurd hd (by decide)
  | cons c as ih =>
    intro x b y ha hb h
    cases b with
    | nil =>
      simp only [List.cons_append, List.nil_append] at h
      injection h with h1 _
      have hc := ha c (List.mem_cons_self c as)
      rw [h1] at hc
      exact absurd hc (by decide)
    | cons d bs =>
      simp only [List.cons_append] at h
      injection h with h1 h2
      obtain ⟨hab, hxy⟩ := ih x bs y
        (fun z hz => ha z (List.mem_cons_of_mem c hz))
        (fun z hz => hb z (List.mem_cons_of_mem d hz)) h2
      exact ⟨by rw [h1, hab], hxy⟩

/-- The characters of `Nat.repr` are its decimal digits. -/
lemma repr_data (n : Nat) : (Nat.repr n).data = Nat.toDigits 10 n := rfl

/-- The character-level shape of the computed cache key. -/
lemma cache_key_data (skip limit : Nat) :
    (cache_key skip limit).data
      = "books:list:".data ++ (Nat.toDigits 10 skip ++ (':' :: Nat.toDigits 10 limit)) := by
  have hcolon : (":" : String).data = [':'] := rfl
  simp [cache_key, String.data_append, repr_data, hcolon, List.append_assoc]

/-- C9: the cache key computed by `get_books` is an injective function of the
(skip, limit) pair: within the validated parameter ranges, equal keys force
equal pagination windows, so distinct windows never collide. -/
theorem cache_key_injective
    (skip1 limit1 skip2 limit2 : Nat)
    (hl1 : 1 ≤ limit1) (hl2 : limit1 ≤ 1000)
    (hl3 : 1 ≤ limit2) (hl4 : limit2 ≤ 1000)
    (h : cache_key skip1 limit1 = cache_key skip2 limit2) :
    skip1 = skip2 ∧ limit1 = limit2 := by
  have hd := congrArg String.data h
  rw [cache_key_data, cache_key_data] at hd
  have hrest := List.append_cancel_left hd
  have hs1 : ∀ c ∈ Nat.toDigits 10 skip1, c.isDigit = true := by
    intro c hc
    exact toDigitsCore_digits (skip1 + 1) skip1 []
      (fun z hz => absurd hz (List.not_mem_nil z)) c hc
  have hs2 : ∀ c ∈ Nat.toDigits 10 skip2, c.isDigit = true := by
    intro c hc
    exact toDigitsCore_digits (skip2 + 1) skip2 []
      (fun z hz => absurd hz (List.not_mem_nil z)) c hc
  obtain ⟨ha, hb⟩ := colon_split (Nat.toDigits 10 skip1) (Nat.toDigits 10 limit1)
    (Nat.toDigits 10 skip2) (Nat.toDigits 10 limit2) hs1 hs2 hrest
  exact ⟨toDigits_inj _ _ ha, toDigits_inj _ _ hb⟩

/-- Witness for `cache_key_injective` at concrete inputs. -/
theorem cache_key_injective_witness :
    cache_key 3 2 = cache_key 3 2 ∧ ((3 : Nat) = 3 ∧ (2 : Nat) = 2) :=
  ⟨rfl, cache_key_injective 3 2 3 2 (by decide) (by decide) (by decide) (by decide) rfl⟩
